import Mathlib

/-!
Verification of the LINE chatbot webhook relay (files `app.py` and
`app2-multi-pdf.py`): the response chunking / multi-part delivery protocol,
the webhook handlers' control flow (document fetch, empty-PDF check, Gemini
inference with timeout handling, reply/push delivery, top-level exception
handling), and the webhook callback.

Strings are modelled as `List Char` (Python `len`/slicing count code points),
document bytes as `List Nat`, and each external call's outcome is supplied by
a `World` record; a raised Python exception is modelled by its message
(`Option String` where `some e` means the call raised `e`, `Except` for calls
returning a value).
-/

namespace Hello60

/-! ### The response chunker (app2-multi-pdf.py, line 205)

`chunks = [gemini_response[i:i+4000] for i in range(0, len(gemini_response), 4000)]`

`range(0, L, 4000)` has `⌈L/4000⌉ = (L + 3999) / 4000` elements, and the
slice `R[i:i+4000]` is `(R.drop i).take 4000`. -/

def makeChunks (R : List Char) : List (List Char) :=
  (List.range' 0 ((R.length + 3999) / 4000) 4000).map fun i => (R.drop i).take 4000

/-- Recursive characterisation of `makeChunks`, used to prove its properties. -/
def chunksRec : List Char → List (List Char)
  | [] => []
  | c :: cs => ((c :: cs).take 4000) :: chunksRec ((c :: cs).drop 4000)
termination_by R => R.length
decreasing_by simp [List.length_drop]; omega

theorem makeChunks_nil : makeChunks [] = [] := by
  simp [makeChunks]

theorem chunksRec_nil : chunksRec [] = [] := by
  rw [chunksRec]

theorem chunksRec_cons (c : Char) (cs : List Char) :
    chunksRec (c :: cs) = ((c :: cs).take 4000) :: chunksRec ((c :: cs).drop 4000) := by
  rw [chunksRec]

theorem makeChunks_eq_chunksRec (R : List Char) : makeChunks R = chunksRec R := by
  have H : ∀ n (R : List Char), R.length ≤ n → makeChunks R = chunksRec R := by
    intro n
    induction n with
    | zero =>
      intro R hR
      have hnil : R = [] := List.length_eq_zero.mp (Nat.le_zero.mp hR)
      subst hnil
      rw [makeChunks_nil, chunksRec_nil]
    | succ n ih =>
      intro R hR
      match R with
      | [] => rw [makeChunks_nil, chunksRec_nil]
      | c :: cs =>
        rw [chunksRec_cons]
        have hL : (c :: cs).length = cs.length + 1 := List.length_cons c cs
        have hdropL : ((c :: cs).drop 4000).length = (c :: cs).length - 4000 :=
          List.length_drop 4000 (c :: cs)
        rw [← ih ((c :: cs).drop 4000) (by omega)]
        unfold makeChunks
        rw [hdropL]
        have hn : ((c :: cs).length + 3999) / 4000
            = (((c :: cs).length - 4000 + 3999) / 4000) + 1 := by omega
        simp only [hn, List.range'_succ, List.map_cons, List.drop_zero, Nat.zero_add]
        congr 1
        have hshift : List.range' 4000 (((c :: cs).length - 4000 + 3999) / 4000) 4000
            = (List.range' 0 (((c :: cs).length - 4000 + 3999) / 4000) 4000).map
                (fun i => 4000 + i) := by
          have h := List.map_add_range' 4000 0 (((c :: cs).length - 4000 + 3999) / 4000) 4000
          exact h.symm
        rw [hshift, List.map_map]
        apply List.map_congr_left
        intro i _
        simp only [Function.comp]
        rw [List.drop_drop]
  exact H R.length R le_rfl

theorem chunksRec_flatten : ∀ R : List Char, (chunksRec R).flatten = R := by
  have H : ∀ n (R : List Char), R.length ≤ n → (chunksRec R).flatten = R := by
    intro n
    induction n with
    | zero =>
      intro R hR
      have hnil : R = [] := List.length_eq_zero.mp (Nat.le_zero.mp hR)
      subst hnil
      rw [chunksRec_nil]
      rfl
    | succ n ih =>
      intro R hR
      match R with
      | [] => rw [chunksRec_nil]; rfl
      | c :: cs =>
        rw [chunksRec_cons, List.flatten_cons]
        have hdropL : ((c :: cs).drop 4000).length = (c :: cs).length - 4000 :=
          List.length_drop 4000 (c :: cs)
        have hL : (c :: cs).length = cs.length + 1 := List.length_cons c cs
        rw [ih ((c :: cs).drop 4000) (by omega)]
        exact List.take_append_drop 4000 (c :: cs)
  exact fun R => H R.length R le_rfl

theorem chunksRec_length : ∀ R : List Char,
    (chunksRec R).length = (R.length + 3999) / 4000 := by
  have H : ∀ n (R : List Char), R.length ≤ n →
      (chunksRec R).length = (R.length + 3999) / 4000 := by
    intro n
    induction n with
    | zero =>
      intro R hR
      have hnil : R = [] := List.length_eq_zero.mp (Nat.le_zero.mp hR)
      subst hnil
      rw [chunksRec_nil]
      rfl
    | succ n ih =>
      intro R hR
      match R with
      | [] => rw [chunksRec_nil]; rfl
      | c :: cs =>
        rw [chunksRec_cons, List.length_cons]
        have hdropL : ((c :: cs).drop 4000).length = (c :: cs).length - 4000 :=
          List.length_drop 4000 (c :: cs)
        have hL : (c :: cs).length = cs.length + 1 := List.length_cons c cs
        rw [ih ((c :: cs).drop 4000) (by omega)]
        rw [hdropL]
        omega
  exact fun R => H R.length R le_rfl

theorem chunksRec_init_length : ∀ (R : List Char) (i : Nat),
    i + 1 < (chunksRec R).length → ((chunksRec R).getD i []).length = 4000 := by
  have H : ∀ n (R : List Char), R.length ≤ n → ∀ i : Nat,
      i + 1 < (chunksRec R).length → ((chunksRec R).getD i []).length = 4000 := by
    intro n
    induction n with
    | zero =>
      intro R hR i hi
      have hnil : R = [] := List.length_eq_zero.mp (Nat.le_zero.mp hR)
      subst hnil
      rw [chunksRec_nil] at hi
      simp at hi
    | succ n ih =>
      intro R hR i hi
      match R with
      | [] => rw [chunksRec_nil] at hi; simp at hi
      | c :: cs =>
        rw [chunksRec_cons] at hi ⊢
        have hdropL : ((c :: cs).drop 4000).length = (c :: cs).length - 4000 :=
          List.length_drop 4000 (c :: cs)
        have hL : (c :: cs).length = cs.length + 1 := List.length_cons c cs
        match i with
        | 0 =>
          rw [List.getD_cons_zero, List.length_take]
          rw [List.length_cons] at hi
          have htaillen : (chunksRec ((c :: cs).drop 4000)).length
              = (((c :: cs).drop 4000).length + 3999) / 4000 :=
            chunksRec_length ((c :: cs).drop 4000)
          rw [htaillen, hdropL] at hi
          omega
        | j + 1 =>
          rw [List.getD_cons_succ]
          rw [List.length_cons] at hi
          exact ih ((c :: cs).drop 4000) (by omega) j (by omega)
  exact fun R => H R.length R le_rfl

theorem chunksRec_last_length : ∀ (R : List Char) (i : Nat),
    i + 1 = (chunksRec R).length →
    ((chunksRec R).getD i []).length = R.length - 4000 * i := by
  have H : ∀ n (R : List Char), R.length ≤ n → ∀ i : Nat,
      i + 1 = (chunksRec R).length →
      ((chunksRec R).getD i []).length = R.length - 4000 * i := by
    intro n
    induction n with
    | zero =>
      intro R hR i hi
      have hnil : R = [] := List.length_eq_zero.mp (Nat.le_zero.mp hR)
      subst hnil
      rw [chunksRec_nil] at hi
      simp at hi
    | succ n ih =>
      intro R hR i hi
      match R with
      | [] => rw [chunksRec_nil] at hi; simp at hi
      | c :: cs =>
        rw [chunksRec_cons] at hi ⊢
        have hdropL : ((c :: cs).drop 4000).length = (c :: cs).length - 4000 :=
          List.length_drop 4000 (c :: cs)
        have hL : (c :: cs).length = cs.length + 1 := List.length_cons c cs
        have htaillen : (chunksRec ((c :: cs).drop 4000)).length
            = (((c :: cs).drop 4000).length + 3999) / 4000 :=
          chunksRec_length ((c :: cs).drop 4000)
        match i with
        | 0 =>
          rw [List.getD_cons_zero, List.length_take]
          rw [List.length_cons] at hi
          rw [htaillen, hdropL] at hi
          omega
        | j + 1 =>
          rw [List.getD_cons_succ]
          rw [List.length_cons] at hi
          have hj := ih ((c :: cs).drop 4000) (by omega) j (by omega)
          rw [hj, hdropL]
          have h4 : 4000 * (j + 1) = 4000 + 4000 * j := by ring
          omega
  exact fun R => H R.length R le_rfl

/-! ### Events recorded for external calls, and the worlds supplying outcomes -/

/-- One attempted external call, recorded in the order the handler makes them. -/
inductive Ev where
  | pushEv (userId : String) (text : List Char)
  | replyEv (token : String) (text : List Char)
  | fetchEv (fileId : String)
  | uploadEv (idx : Nat)
  | generateEv
  deriving DecidableEq

/-- Outcome of `client.models.generate_content`: a response text, a raised
`httpx.TimeoutException` with message `e`, or another raised exception `e`. -/
inductive GenResult where
  | ok (text : List Char)
  | timeout (e : String)
  | fail (e : String)
  deriving DecidableEq

/-- Outcomes of the external calls made while handling one text message in
`app2-multi-pdf.py`, plus the configured document ids (env vars
`GOOGLE_DRIVE_PDF1_ID`..`GOOGLE_DRIVE_PDF3_ID`). `pushOutcome t` and
`replyOutcome t` give the outcome of `push_message` / `reply_message` with
text `t` (`none`: succeeds, `some e`: raises an exception with message `e`);
`fetchOutcome fid` the outcome of `get_pdf_from_drive fid` (`Except.ok`: the
downloaded bytes, `Except.error e`: raises); `uploadOutcome k` the outcome of
uploading PDF `k` to Gemini. -/
structure World2 where
  pushOutcome : List Char → Option String
  replyOutcome : List Char → Option String
  fetchOutcome : String → Except String (List Nat)
  uploadOutcome : Nat → Option String
  genOutcome : GenResult
  pdf1Id : String
  pdf2Id : String
  pdf3Id : String

/-- Text of the "processing" acknowledgment push (both files). -/
def ackText : List Char := "正在處理您的查詢，請稍候...".data

/-- Text of the empty-PDF error reply (app2 line 193). -/
def emptyPdfText : List Char := "無法處理您的請求：有PDF文件為空。".data

/-- Fixed user-facing timeout message (app2 line 146). -/
def timeoutText : List Char := "處理您的查詢時發生超時，請嘗試簡化您的問題或稍後再試。".data

/-- Error string of process_with_gemini's outer except (both files): a fixed
Chinese prefix followed by `str(e)`. -/
def geminiErrText (e : String) : List Char := "處理您的查詢時發生錯誤: ".data ++ e.data

/-- Error string of handle_text_message's except-block (both files): a fixed
Chinese prefix followed by `str(e)`. -/
def handlerErrText (e : String) : List Char := "處理您的請求時發生錯誤: ".data ++ e.data

/-- Prepend already-recorded events to a stage result. -/
def withEvs (pre : List Ev) (r : List Ev × Option String) : List Ev × Option String :=
  (pre ++ r.1, r.2)

/-- The `except Exception as e:` block of handle_text_message (app2 lines
225-230, app.py lines 157-162): one last error reply whose text carries the
exception message; if that reply itself raises, the new exception propagates
(second component `some`). -/
def exceptBlock (replyOutcome : List Char → Option String) (token e : String) :
    List Ev × Option String :=
  ([Ev.replyEv token (handlerErrText e)], replyOutcome (handlerErrText e))

/-- process_with_gemini (app2 lines 90-153): three uploads, then
generate_content. An upload exception or a non-timeout generation exception is
caught by the outer except and turned into the error string; an
`httpx.TimeoutException` is turned into the fixed timeout string. The function
always returns a string and never raises. -/
def process_with_gemini2 (w : World2) : List Ev × List Char :=
  match w.uploadOutcome 1 with
  | some e => ([Ev.uploadEv 1], geminiErrText e)
  | none =>
    match w.uploadOutcome 2 with
    | some e => ([Ev.uploadEv 1, Ev.uploadEv 2], geminiErrText e)
    | none =>
      match w.uploadOutcome 3 with
      | some e => ([Ev.uploadEv 1, Ev.uploadEv 2, Ev.uploadEv 3], geminiErrText e)
      | none =>
        match w.genOutcome with
        | GenResult.ok t =>
            ([Ev.uploadEv 1, Ev.uploadEv 2, Ev.uploadEv 3, Ev.generateEv], t)
        | GenResult.timeout _ =>
            ([Ev.uploadEv 1, Ev.uploadEv 2, Ev.uploadEv 3, Ev.generateEv], timeoutText)
        | GenResult.fail e =>
            ([Ev.uploadEv 1, Ev.uploadEv 2, Ev.uploadEv 3, Ev.generateEv], geminiErrText e)

/-- The `for chunk in chunks[1:]` push loop (app2 lines 214-218); a failing
push jumps to the handler's except-block. -/
def pushLoop (w : World2) (userId token : String) :
    List (List Char) → List Ev × Option String
  | [] => ([], none)
  | c :: cs =>
    match w.pushOutcome c with
    | some e => withEvs [Ev.pushEv userId c] (exceptBlock w.replyOutcome token e)
    | none => withEvs [Ev.pushEv userId c] (pushLoop w userId token cs)

/-- Lines 201-223 of app2-multi-pdf.py: length gate at 5000; above it, reply
with `chunks[0]` (under the gate the chunk list is nonempty, so `headI` is
`chunks[0]`) then push the remaining chunks; otherwise a single reply with the
whole response. -/
def deliver2 (w : World2) (userId token : String) (resp : List Char) :
    List Ev × Option String :=
  if resp.length > 5000 then
    match w.replyOutcome (makeChunks resp).headI with
    | some e =>
        withEvs [Ev.replyEv token (makeChunks resp).headI]
          (exceptBlock w.replyOutcome token e)
    | none =>
        withEvs [Ev.replyEv token (makeChunks resp).headI]
          (pushLoop w userId token (makeChunks resp).tail)
  else
    match w.replyOutcome resp with
    | some e => withEvs [Ev.replyEv token resp] (exceptBlock w.replyOutcome token e)
    | none => ([Ev.replyEv token resp], none)

/-- Lines 188-223 of app2-multi-pdf.py: the empty-PDF check (reply and return
when any fetched document has zero bytes), then inference and delivery. -/
def afterFetches (w : World2) (userId token : String) (d1 d2 d3 : List Nat) :
    List Ev × Option String :=
  if d1.length = 0 ∨ d2.length = 0 ∨ d3.length = 0 then
    match w.replyOutcome emptyPdfText with
    | some e => withEvs [Ev.replyEv token emptyPdfText] (exceptBlock w.replyOutcome token e)
    | none => ([Ev.replyEv token emptyPdfText], none)
  else
    withEvs (process_with_gemini2 w).1 (deliver2 w userId token (process_with_gemini2 w).2)

/-- Lines 181-185 of app2-multi-pdf.py: the three sequential document fetches;
a raising fetch jumps to the except-block. -/
def fetchStage (w : World2) (userId token : String) : List Ev × Option String :=
  match w.fetchOutcome w.pdf1Id with
  | Except.error e => withEvs [Ev.fetchEv w.pdf1Id] (exceptBlock w.replyOutcome token e)
  | Except.ok d1 =>
    withEvs [Ev.fetchEv w.pdf1Id] <|
      match w.fetchOutcome w.pdf2Id with
      | Except.error e => withEvs [Ev.fetchEv w.pdf2Id] (exceptBlock w.replyOutcome token e)
      | Except.ok d2 =>
        withEvs [Ev.fetchEv w.pdf2Id] <|
          match w.fetchOutcome w.pdf3Id with
          | Except.error e =>
              withEvs [Ev.fetchEv w.pdf3Id] (exceptBlock w.replyOutcome token e)
          | Except.ok d3 =>
              withEvs [Ev.fetchEv w.pdf3Id] (afterFetches w userId token d1 d2 d3)

/-- handle_text_message (app2-multi-pdf.py lines 168-230): ack push first
(inside the `try`), then fetches, empty check, inference, delivery; any raise
lands in the except-block. Result: the ordered list of attempted external
calls, and `some e` exactly when an exception escapes to the webhook
transport. -/
def handle2 (w : World2) (userId token : String) : List Ev × Option String :=
  match w.pushOutcome ackText with
  | some e => withEvs [Ev.pushEv userId ackText] (exceptBlock w.replyOutcome token e)
  | none => withEvs [Ev.pushEv userId ackText] (fetchStage w userId token)

/-- Outcomes of the external calls for `app.py` (single document, env var
`GOOGLE_DRIVE_PDF_ID`). -/
structure World1 where
  pushOutcome : List Char → Option String
  replyOutcome : List Char → Option String
  fetchOutcome : String → Except String (List Nat)
  genOutcome : GenResult
  pdfId : String

/-- process_with_gemini (app.py lines 87-117): every exception raised by
generate_content - a timeout included - is caught by the single generic
except and becomes the error string; there is no timeout-specific branch.
Always returns a string and never raises. -/
def process_with_gemini1 (w : World1) : List Char :=
  match w.genOutcome with
  | GenResult.ok t => t
  | GenResult.timeout e => geminiErrText e
  | GenResult.fail e => geminiErrText e

/-- handle_text_message (app.py lines 132-162): fetch first, then ack push,
then inference, then a single reply with the whole response (no length check,
no chunking, no push of the answer). -/
def handle1 (w : World1) (userId token : String) : List Ev × Option String :=
  match w.fetchOutcome w.pdfId with
  | Except.error e => withEvs [Ev.fetchEv w.pdfId] (exceptBlock w.replyOutcome token e)
  | Except.ok _d =>
    withEvs [Ev.fetchEv w.pdfId] <|
      match w.pushOutcome ackText with
      | some e => withEvs [Ev.pushEv userId ackText] (exceptBlock w.replyOutcome token e)
      | none =>
        withEvs [Ev.pushEv userId ackText] <|
          match w.replyOutcome (process_with_gemini1 w) with
          | some e =>
              withEvs [Ev.replyEv token (process_with_gemini1 w)]
                (exceptBlock w.replyOutcome token e)
          | none => ([Ev.replyEv token (process_with_gemini1 w)], none)

/-- Result of the Flask `/callback` view: a normal return, `abort(status)`, or
an exception escaping the view function. -/
inductive CallbackResult where
  | ok (body : String)
  | aborted (status : Nat)
  | exn (e : String)
  deriving DecidableEq

/-- The `/callback` view (app2 lines 155-166, app.py lines 119-130,
identical): `handler.handle` raises `InvalidSignatureError` exactly when the
signature is invalid (then `abort(400)`); any exception escaping the
dispatched message handler propagates out of the view; otherwise the view
returns `'OK'` (HTTP 200). -/
def callback (sigValid : Bool) (handlerExn : Option String) : CallbackResult :=
  if sigValid then
    match handlerExn with
    | none => CallbackResult.ok "OK"
    | some e => CallbackResult.exn e
  else CallbackResult.aborted 400

/-- Recognises a reply delivery event. -/
def isReplyEv : Ev → Bool
  | Ev.replyEv _ _ => true
  | _ => false

/-- Recognises a push delivery event. -/
def isPushEv : Ev → Bool
  | Ev.pushEv _ _ => true
  | _ => false

/-- Recognises an inference-client call: a Gemini file upload or a
generate_content call. -/
def isInferEv : Ev → Bool
  | Ev.uploadEv _ => true
  | Ev.generateEv => true
  | _ => false

/-- First raising document fetch of the app2 handler, in fetch order. -/
def firstFetchError (w : World2) : Option String :=
  match w.fetchOutcome w.pdf1Id with
  | Except.error e => some e
  | Except.ok _ =>
    match w.fetchOutcome w.pdf2Id with
    | Except.error e => some e
    | Except.ok _ =>
      match w.fetchOutcome w.pdf3Id with
      | Except.error e => some e
      | Except.ok _ => none

/-- The chunk list the delivery code sends as the answer: one chunk (the whole
response) when the gate `len > 5000` is not taken, else the 4000-slices. -/
def answerChunks (resp : List Char) : List (List Char) :=
  if resp.length > 5000 then makeChunks resp else [resp]

/-! ### Concrete worlds used by witnesses and counterexamples -/

/-- All-benign app2 world: every delivery succeeds, every fetch returns one
byte, uploads succeed, generation answers with one character. -/
def wOk : World2 :=
  { pushOutcome := fun _ => none
    replyOutcome := fun _ => none
    fetchOutcome := fun _ => Except.ok [1]
    uploadOutcome := fun _ => none
    genOutcome := GenResult.ok ['a']
    pdf1Id := "pdf1"
    pdf2Id := "pdf2"
    pdf3Id := "pdf3" }

/-- App2 world in which every push and every reply raises. -/
def wBad : World2 :=
  { pushOutcome := fun _ => some "push boom"
    replyOutcome := fun _ => some "reply boom"
    fetchOutcome := fun _ => Except.ok [1]
    uploadOutcome := fun _ => none
    genOutcome := GenResult.ok ['a']
    pdf1Id := "pdf1"
    pdf2Id := "pdf2"
    pdf3Id := "pdf3" }

/-- App2 world in which every document fetch raises. -/
def wFetchFail : World2 :=
  { pushOutcome := fun _ => none
    replyOutcome := fun _ => none
    fetchOutcome := fun _ => Except.error "drive down"
    uploadOutcome := fun _ => none
    genOutcome := GenResult.ok ['a']
    pdf1Id := "pdf1"
    pdf2Id := "pdf2"
    pdf3Id := "pdf3" }

/-- App2 world in which every document fetch returns zero bytes. -/
def wEmptyDoc : World2 :=
  { pushOutcome := fun _ => none
    replyOutcome := fun _ => none
    fetchOutcome := fun _ => Except.ok []
    uploadOutcome := fun _ => none
    genOutcome := GenResult.ok ['a']
    pdf1Id := "pdf1"
    pdf2Id := "pdf2"
    pdf3Id := "pdf3" }

/-- App2 world whose generate_content call raises a timeout. -/
def wTimeout2 : World2 :=
  { pushOutcome := fun _ => none
    replyOutcome := fun _ => none
    fetchOutcome := fun _ => Except.ok [1]
    uploadOutcome := fun _ => none
    genOutcome := GenResult.timeout "ReadTimeout"
    pdf1Id := "pdf1"
    pdf2Id := "pdf2"
    pdf3Id := "pdf3" }

/-- All-benign app.py world. -/
def wOk1 : World1 :=
  { pushOutcome := fun _ => none
    replyOutcome := fun _ => none
    fetchOutcome := fun _ => Except.ok [1]
    genOutcome := GenResult.ok ['a']
    pdfId := "pdf" }

/-- App.py world whose generate_content call raises a timeout. -/
def wTimeout1 : World1 :=
  { pushOutcome := fun _ => none
    replyOutcome := fun _ => none
    fetchOutcome := fun _ => Except.ok [1]
    genOutcome := GenResult.timeout "ReadTimeout"
    pdfId := "pdf" }

/-! ### Helper lemmas -/

theorem pushLoop_ok (w : World2) (u t : String) (hp : ∀ s, w.pushOutcome s = none) :
    ∀ cs, pushLoop w u t cs = (cs.map (fun c => Ev.pushEv u c), none) := by
  intro cs
  induction cs with
  | nil => rfl
  | cons c cs ih => simp [pushLoop, hp c, ih, withEvs]

theorem filter_isReplyEv_map_push (u : String) (l : List (List Char)) :
    (l.map (fun c => Ev.pushEv u c)).filter isReplyEv = [] := by
  rw [List.filter_eq_nil_iff]
  intro a ha
  obtain ⟨c, _, rfl⟩ := List.mem_map.mp ha
  simp [isReplyEv]

theorem filter_isPushEv_map_push (u : String) (l : List (List Char)) :
    (l.map (fun c => Ev.pushEv u c)).filter isPushEv = l.map (fun c => Ev.pushEv u c) := by
  rw [List.filter_eq_self]
  intro a ha
  obtain ⟨c, _, rfl⟩ := List.mem_map.mp ha
  rfl

/-- An exception escapes a handler-stage result only when the except-block's
own error reply raised it; that error reply is then the last attempted call. -/
def ExnOnlyFromErrorReply (ro : List Char → Option String) (token : String)
    (r : List Ev × Option String) : Prop :=
  ∀ e2 : String, r.2 = some e2 →
    ∃ e : String, r.1.getLast? = some (Ev.replyEv token (handlerErrText e)) ∧
      ro (handlerErrText e) = some e2

theorem exnOnly_of_none (ro : List Char → Option String) (token : String)
    (r : List Ev × Option String) (h : r.2 = none) :
    ExnOnlyFromErrorReply ro token r := by
  intro e2 h2
  rw [h] at h2
  cases h2

theorem exnOnly_exceptBlock (ro : List Char → Option String) (token e : String) :
    ExnOnlyFromErrorReply ro token (exceptBlock ro token e) := by
  intro e2 h2
  exact ⟨e, rfl, h2⟩

theorem exnOnly_withEvs (ro : List Char → Option String) (token : String)
    (pre : List Ev) (r : List Ev × Option String)
    (h : ExnOnlyFromErrorReply ro token r) :
    ExnOnlyFromErrorReply ro token (withEvs pre r) := by
  intro e2 h2
  obtain ⟨e, hl, ho⟩ := h e2 h2
  refine ⟨e, ?_, ho⟩
  have hne : r.1 ≠ [] := by
    intro hn
    rw [hn] at hl
    cases hl
  show (pre ++ r.1).getLast? = some (Ev.replyEv token (handlerErrText e))
  rw [List.getLast?_append_of_ne_nil pre hne]
  exact hl

theorem exnOnly_pushLoop (w : World2) (u token : String) :
    ∀ cs, ExnOnlyFromErrorReply w.replyOutcome token (pushLoop w u token cs) := by
  intro cs
  induction cs with
  | nil => exact exnOnly_of_none _ _ _ rfl
  | cons c cs ih =>
    cases h : w.pushOutcome c with
    | some e =>
      simp only [pushLoop, h]
      exact exnOnly_withEvs _ _ _ _ (exnOnly_exceptBlock _ _ _)
    | none =>
      simp only [pushLoop, h]
      exact exnOnly_withEvs _ _ _ _ ih

theorem exnOnly_deliver2 (w : World2) (u token : String) (resp : List Char) :
    ExnOnlyFromErrorReply w.replyOutcome token (deliver2 w u token resp) := by
  unfold deliver2
  by_cases h : resp.length > 5000
  · rw [if_pos h]
    cases hr : w.replyOutcome (makeChunks resp).headI with
    | some e => exact exnOnly_withEvs _ _ _ _ (exnOnly_exceptBlock _ _ _)
    | none => exact exnOnly_withEvs _ _ _ _ (exnOnly_pushLoop _ _ _ _)
  · rw [if_neg h]
    cases hr : w.replyOutcome resp with
    | some e => exact exnOnly_withEvs _ _ _ _ (exnOnly_exceptBlock _ _ _)
    | none => exact exnOnly_of_none _ _ _ rfl

theorem exnOnly_afterFetches (w : World2) (u token : String) (d1 d2 d3 : List Nat) :
    ExnOnlyFromErrorReply w.replyOutcome token (afterFetches w u token d1 d2 d3) := by
  unfold afterFetches
  by_cases h : d1.length = 0 ∨ d2.length = 0 ∨ d3.length = 0
  · rw [if_pos h]
    cases hr : w.replyOutcome emptyPdfText with
    | some e => exact exnOnly_withEvs _ _ _ _ (exnOnly_exceptBlock _ _ _)
    | none => exact exnOnly_of_none _ _ _ rfl
  · rw [if_neg h]
    exact exnOnly_withEvs _ _ _ _ (exnOnly_deliver2 _ _ _ _)

theorem exnOnly_fetchStage (w : World2) (u token : String) :
    ExnOnlyFromErrorReply w.replyOutcome token (fetchStage w u token) := by
  unfold fetchStage
  cases h1 : w.fetchOutcome w.pdf1Id with
  | error e => exact exnOnly_withEvs _ _ _ _ (exnOnly_exceptBlock _ _ _)
  | ok d1 =>
    apply exnOnly_withEvs
    cases h2 : w.fetchOutcome w.pdf2Id with
    | error e => exact exnOnly_withEvs _ _ _ _ (exnOnly_exceptBlock _ _ _)
    | ok d2 =>
      apply exnOnly_withEvs
      cases h3 : w.fetchOutcome w.pdf3Id with
      | error e => exact exnOnly_withEvs _ _ _ _ (exnOnly_exceptBlock _ _ _)
      | ok d3 => exact exnOnly_withEvs _ _ _ _ (exnOnly_afterFetches _ _ _ _ _ _)

theorem exnOnly_handle2 (w : World2) (u token : String) :
    ExnOnlyFromErrorReply w.replyOutcome token (handle2 w u token) := by
  unfold handle2
  cases h : w.pushOutcome ackText with
  | some e => exact exnOnly_withEvs _ _ _ _ (exnOnly_exceptBlock _ _ _)
  | none => exact exnOnly_withEvs _ _ _ _ (exnOnly_fetchStage _ _ _)

theorem exnOnly_handle1 (w : World1) (u token : String) :
    ExnOnlyFromErrorReply w.replyOutcome token (handle1 w u token) := by
  unfold handle1
  cases hf : w.fetchOutcome w.pdfId with
  | error e => exact exnOnly_withEvs _ _ _ _ (exnOnly_exceptBlock _ _ _)
  | ok d =>
    apply exnOnly_withEvs
    cases h : w.pushOutcome ackText with
    | some e => exact exnOnly_withEvs _ _ _ _ (exnOnly_exceptBlock _ _ _)
    | none =>
      apply exnOnly_withEvs
      cases hr : w.replyOutcome (process_with_gemini1 w) with
      | some e => exact exnOnly_withEvs _ _ _ _ (exnOnly_exceptBlock _ _ _)
      | none => exact exnOnly_of_none _ _ _ rfl

/-! ### Claim theorems -/

/-- C1: for every response `R` with `len(R) > 5000`, the chunker at line 205
of app2-multi-pdf.py partitions `R` into `⌈len(R)/4000⌉ = (len(R)+3999)/4000`
contiguous substrings in original order: their concatenation is exactly `R`,
every chunk but the last has length exactly 4000, and the last has length
`len(R) - 4000*(n-1)` where `n` is the chunk count. -/
theorem c1_chunk_partition (R : List Char) (hR : R.length > 5000) :
    (makeChunks R).length = (R.length + 3999) / 4000 ∧
    (makeChunks R).flatten = R ∧
    (∀ i : Nat, i + 1 < (makeChunks R).length →
      ((makeChunks R).getD i []).length = 4000) ∧
    ((makeChunks R).getD ((makeChunks R).length - 1) []).length
      = R.length - 4000 * ((makeChunks R).length - 1) := by
  rw [makeChunks_eq_chunksRec]
  refine ⟨chunksRec_length R, chunksRec_flatten R, chunksRec_init_length R, ?_⟩
  have hn := chunksRec_length R
  exact chunksRec_last_length R ((chunksRec R).length - 1) (by omega)

/-- Witness for C1 at the spec scenario: `R` is 9000 characters. -/
theorem c1_chunk_partition_witness :
    (List.replicate 9000 'a').length > 5000 ∧
    ((makeChunks (List.replicate 9000 'a')).length
        = ((List.replicate 9000 'a').length + 3999) / 4000 ∧
      (makeChunks (List.replicate 9000 'a')).flatten = List.replicate 9000 'a' ∧
      (∀ i : Nat, i + 1 < (makeChunks (List.replicate 9000 'a')).length →
        ((makeChunks (List.replicate 9000 'a')).getD i []).length = 4000) ∧
      ((makeChunks (List.replicate 9000 'a')).getD
          ((makeChunks (List.replicate 9000 'a')).length - 1) []).length
        = (List.replicate 9000 'a').length
            - 4000 * ((makeChunks (List.replicate 9000 'a')).length - 1)) :=
  ⟨by rw [List.length_replicate]; norm_num,
    c1_chunk_partition (List.replicate 9000 'a') (by rw [List.length_replicate]; norm_num)⟩

/-- C2: when `len(R) ≤ 5000` (the 4500-character scenario included), the
delivery code of app2-multi-pdf.py takes the single-reply branch: exactly one
chunk, equal to `R`, delivered via the reply channel, with no push issued for
the answer. (Hypothesis: the reply call itself succeeds.) -/
theorem c2_single_reply (w : World2) (u t : String) (resp : List Char)
    (hlen : resp.length ≤ 5000) (hr : w.replyOutcome resp = none) :
    deliver2 w u t resp = ([Ev.replyEv t resp], none) := by
  unfold deliver2
  rw [if_neg (by omega), hr]

/-- Witness for C2 at the spec scenario: `R` is 4500 characters. -/
theorem c2_single_reply_witness :
    (List.replicate 4500 'a').length ≤ 5000 ∧
    wOk.replyOutcome (List.replicate 4500 'a') = none ∧
    deliver2 wOk "u" "t" (List.replicate 4500 'a')
      = ([Ev.replyEv "t" (List.replicate 4500 'a')], none) :=
  ⟨by rw [List.length_replicate]; norm_num, rfl,
    c2_single_reply wOk "u" "t" (List.replicate 4500 'a')
      (by rw [List.length_replicate]; norm_num) rfl⟩

/-- C3: when every delivery call succeeds, the delivery code of
app2-multi-pdf.py sends chunk 0 via the reply channel (consuming the reply
token), chunks 1..n-1 each via an independent push to the original user id,
in sequence order; answer-delivery calls total exactly one reply plus
`n - 1` pushes. -/
theorem c3_delivery_plan (w : World2) (u t : String) (resp : List Char)
    (hr : w.replyOutcome = fun _ => none) (hp : w.pushOutcome = fun _ => none) :
    deliver2 w u t resp
      = (Ev.replyEv t (answerChunks resp).headI ::
          (answerChunks resp).tail.map (fun c => Ev.pushEv u c), none) ∧
    ((deliver2 w u t resp).1.filter isReplyEv).length = 1 ∧
    ((deliver2 w u t resp).1.filter isPushEv).length = (answerChunks resp).length - 1 := by
  have hr' : ∀ s, w.replyOutcome s = none := fun s => by rw [hr]
  have hp' : ∀ s, w.pushOutcome s = none := fun s => by rw [hp]
  have hmain : deliver2 w u t resp
      = (Ev.replyEv t (answerChunks resp).headI ::
          (answerChunks resp).tail.map (fun c => Ev.pushEv u c), none) := by
    unfold deliver2 answerChunks
    by_cases h : resp.length > 5000
    · rw [if_pos h, if_pos h, hr' (makeChunks resp).headI,
        pushLoop_ok w u t hp' (makeChunks resp).tail]
      rfl
    · rw [if_neg h, if_neg h, hr' resp]
      rfl
  refine ⟨hmain, ?_, ?_⟩
  · rw [hmain]
    show (Ev.replyEv t (answerChunks resp).headI ::
        List.filter isReplyEv
          (List.map (fun c => Ev.pushEv u c) (answerChunks resp).tail)).length = 1
    rw [filter_isReplyEv_map_push]
    rfl
  · rw [hmain]
    show (List.filter isPushEv
        (List.map (fun c => Ev.pushEv u c) (answerChunks resp).tail)).length
      = (answerChunks resp).length - 1
    rw [filter_isPushEv_map_push, List.length_map, List.length_tail]

/-- Witness for C3 in the all-benign world on a short response. -/
theorem c3_delivery_plan_witness :
    wOk.replyOutcome = (fun _ => none) ∧ wOk.pushOutcome = (fun _ => none) ∧
    (deliver2 wOk "u" "t" ['a', 'b']
        = (Ev.replyEv "t" (answerChunks ['a', 'b']).headI ::
            (answerChunks ['a', 'b']).tail.map (fun c => Ev.pushEv "u" c), none) ∧
      ((deliver2 wOk "u" "t" ['a', 'b']).1.filter isReplyEv).length = 1 ∧
      ((deliver2 wOk "u" "t" ['a', 'b']).1.filter isPushEv).length
        = (answerChunks ['a', 'b']).length - 1) :=
  ⟨rfl, rfl, c3_delivery_plan wOk "u" "t" ['a', 'b'] rfl rfl⟩

/-- C5: if a document fetch raises (the ack push having succeeded, so the
fetch stage is reached), the app2 handler issues exactly one reply, whose
text carries the exception's text as a suffix, and never calls the inference
client in that request. -/
theorem c5_fetch_error (w : World2) (u t e : String)
    (hack : w.pushOutcome ackText = none)
    (hf : firstFetchError w = some e) :
    (handle2 w u t).1.filter isReplyEv = [Ev.replyEv t (handlerErrText e)] ∧
    (handle2 w u t).1.filter isInferEv = [] ∧
    List.IsSuffix e.data (handlerErrText e) := by
  unfold firstFetchError at hf
  refine ?_
  have hsuf : List.IsSuffix e.data (handlerErrText e) := List.suffix_append _ _
  cases h1 : w.fetchOutcome w.pdf1Id with
  | error e1 =>
    rw [h1] at hf
    injection hf with he
    subst he
    refine ⟨?_, ?_, hsuf⟩ <;>
      simp [handle2, fetchStage, hack, h1, withEvs, exceptBlock, List.filter,
        isReplyEv, isInferEv]
  | ok d1 =>
    rw [h1] at hf
    cases h2 : w.fetchOutcome w.pdf2Id with
    | error e2 =>
      rw [h2] at hf
      injection hf with he
      subst he
      refine ⟨?_, ?_, hsuf⟩ <;>
        simp [handle2, fetchStage, hack, h1, h2, withEvs, exceptBlock, List.filter,
          isReplyEv, isInferEv]
    | ok d2 =>
      rw [h2] at hf
      cases h3 : w.fetchOutcome w.pdf3Id with
      | error e3 =>
        rw [h3] at hf
        injection hf with he
        subst he
        refine ⟨?_, ?_, hsuf⟩ <;>
          simp [handle2, fetchStage, hack, h1, h2, h3, withEvs, exceptBlock, List.filter,
            isReplyEv, isInferEv]
      | ok d3 =>
        rw [h3] at hf
        cases hf

/-- Witness for C5: every fetch raises in `wFetchFail`. -/
theorem c5_fetch_error_witness :
    wFetchFail.pushOutcome ackText = none ∧
    firstFetchError wFetchFail = some "drive down" ∧
    ((handle2 wFetchFail "u" "t").1.filter isReplyEv
        = [Ev.replyEv "t" (handlerErrText "drive down")] ∧
      (handle2 wFetchFail "u" "t").1.filter isInferEv = [] ∧
      List.IsSuffix ("drive down").data (handlerErrText "drive down")) :=
  ⟨rfl, rfl, c5_fetch_error wFetchFail "u" "t" "drive down" rfl rfl⟩

/-- C4 counterexample: with a valid signature but a world in which the ack
push raises and the last-resort error reply also raises, the exception
escapes `handle_text_message`, so the callback does not return 200 "OK" - it
propagates the exception (the framework then answers 500, not 200). -/
theorem c4_callback_counterexample :
    callback true (handle2 wBad "u" "t").2 = CallbackResult.exn "reply boom" ∧
    callback true (handle2 wBad "u" "t").2 ≠ CallbackResult.ok "OK" :=
  ⟨rfl, by decide⟩

/-- C4 (amended): the callback returns 200 with body "OK" exactly when the
signature is valid and no exception escapes the message handler; it aborts
with HTTP 400 exactly when signature verification fails; an exception
escaping the handler propagates out of the callback unchanged. -/
theorem c4_callback_status (sig : Bool) (w : World2) (u t : String) :
    (callback sig (handle2 w u t).2 = CallbackResult.ok "OK"
        ↔ sig = true ∧ (handle2 w u t).2 = none) ∧
    (callback sig (handle2 w u t).2 = CallbackResult.aborted 400 ↔ sig = false) ∧
    (∀ e : String, callback true (some e) = CallbackResult.exn e) := by
  refine ⟨?_, ?_, fun e => rfl⟩
  · cases sig
    · simp [callback]
    · cases h : (handle2 w u t).2 <;> simp [callback, h]
  · cases sig
    · simp [callback]
    · cases h : (handle2 w u t).2 <;> simp [callback, h]

/-- C6 counterexample: in app.py a timeout-specific inference error does NOT
yield the fixed timeout message - the generic except converts it to the
generic error string carrying the exception's text. -/
theorem c6_timeout_counterexample :
    process_with_gemini1 wTimeout1 = geminiErrText "ReadTimeout" ∧
    process_with_gemini1 wTimeout1 ≠ timeoutText :=
  ⟨rfl, by decide⟩

/-- C6 (amended): in the multi-document variant a timeout-specific
generate_content error (the uploads having succeeded) yields the fixed
user-facing timeout message; in the single-document variant the same timeout
is caught by the generic except and converted to the generic error string
carrying the exception's text. In both variants process_with_gemini returns a
string and never re-raises. -/
theorem c6_timeout_message (w : World2) (w1 : World1) (e e1 : String)
    (h1 : w.uploadOutcome 1 = none) (h2 : w.uploadOutcome 2 = none)
    (h3 : w.uploadOutcome 3 = none) (hg : w.genOutcome = GenResult.timeout e)
    (hg1 : w1.genOutcome = GenResult.timeout e1) :
    (process_with_gemini2 w).2 = timeoutText ∧
    process_with_gemini1 w1 = geminiErrText e1 := by
  constructor
  · simp [process_with_gemini2, h1, h2, h3, hg]
  · simp [process_with_gemini1, hg1]

/-- Witness for C6 (amended) at the two concrete timeout worlds. -/
theorem c6_timeout_message_witness :
    wTimeout2.uploadOutcome 1 = none ∧ wTimeout2.uploadOutcome 2 = none ∧
    wTimeout2.uploadOutcome 3 = none ∧
    wTimeout2.genOutcome = GenResult.timeout "ReadTimeout" ∧
    wTimeout1.genOutcome = GenResult.timeout "ReadTimeout" ∧
    ((process_with_gemini2 wTimeout2).2 = timeoutText ∧
      process_with_gemini1 wTimeout1 = geminiErrText "ReadTimeout") :=
  ⟨rfl, rfl, rfl, rfl, rfl,
    c6_timeout_message wTimeout2 wTimeout1 "ReadTimeout" "ReadTimeout" rfl rfl rfl rfl rfl⟩

/-- C7 counterexample: when the ack push raises and the last-resort error
reply raises too, the exception IS re-raised to the webhook transport - the
transport does not receive a success acknowledgment. -/
theorem c7_exception_counterexample :
    (handle2 wBad "u" "t").2 = some "reply boom" ∧ (handle2 wBad "u" "t").2 ≠ none :=
  ⟨rfl, by decide⟩

/-- C7 (amended): every exception raised inside the handler's main block
(reply/push delivery failures included) is caught by the top-level except and
converted into one error reply carrying the exception's text; an exception
reaches the webhook transport only when that last-resort error reply itself
raises, in which case the error reply is the last attempted call and the
propagated exception is the one it raised. This holds for both variants. -/
theorem c7_exception_containment :
    (∀ (w : World2) (u t e2 : String), (handle2 w u t).2 = some e2 →
      ∃ e : String, (handle2 w u t).1.getLast? = some (Ev.replyEv t (handlerErrText e)) ∧
        w.replyOutcome (handlerErrText e) = some e2) ∧
    (∀ (w : World1) (u t e2 : String), (handle1 w u t).2 = some e2 →
      ∃ e : String, (handle1 w u t).1.getLast? = some (Ev.replyEv t (handlerErrText e)) ∧
        w.replyOutcome (handlerErrText e) = some e2) :=
  ⟨fun w u t => exnOnly_handle2 w u t, fun w u t => exnOnly_handle1 w u t⟩

/-- Witness for C7 (amended) at the failing world `wBad`. -/
theorem c7_exception_containment_witness :
    (handle2 wBad "u" "t").2 = some "reply boom" ∧
    (∃ e : String, (handle2 wBad "u" "t").1.getLast?
        = some (Ev.replyEv "t" (handlerErrText e)) ∧
      wBad.replyOutcome (handlerErrText e) = some "reply boom") :=
  ⟨rfl, c7_exception_containment.1 wBad "u" "t" "reply boom" rfl⟩

/-- C8: the app2 handler's very first external call is always the
"processing" acknowledgment push to the user - in every world it precedes
every document fetch, and it is attempted even in worlds where a later fetch
fails. -/
theorem c8_ack_push_first (w : World2) (u t : String) :
    (handle2 w u t).1.head? = some (Ev.pushEv u ackText) := by
  unfold handle2
  cases h : w.pushOutcome ackText <;> rfl

/-- C9: with the ack push and all three fetches succeeding, a zero-byte
document makes the app2 handler reply the fixed empty-PDF message and return
immediately: the trace is exactly ack push, three fetches, one reply, and the
inference client is never invoked. (Hypothesis: that reply call succeeds.) -/
theorem c9_empty_pdf (w : World2) (u t : String) (d1 d2 d3 : List Nat)
    (hack : w.pushOutcome ackText = none)
    (h1 : w.fetchOutcome w.pdf1Id = Except.ok d1)
    (h2 : w.fetchOutcome w.pdf2Id = Except.ok d2)
    (h3 : w.fetchOutcome w.pdf3Id = Except.ok d3)
    (hz : d1.length = 0 ∨ d2.length = 0 ∨ d3.length = 0)
    (hre : w.replyOutcome emptyPdfText = none) :
    handle2 w u t = ([Ev.pushEv u ackText, Ev.fetchEv w.pdf1Id, Ev.fetchEv w.pdf2Id,
        Ev.fetchEv w.pdf3Id, Ev.replyEv t emptyPdfText], none) ∧
    (handle2 w u t).1.filter isInferEv = [] := by
  have hmain : handle2 w u t = ([Ev.pushEv u ackText, Ev.fetchEv w.pdf1Id,
      Ev.fetchEv w.pdf2Id, Ev.fetchEv w.pdf3Id, Ev.replyEv t emptyPdfText], none) := by
    have hz' : d1 = [] ∨ d2 = [] ∨ d3 = [] := by
      simpa [List.length_eq_zero] using hz
    simp [handle2, fetchStage, afterFetches, hack, h1, h2, h3, hz', hre, withEvs]
  exact ⟨hmain, by rw [hmain]; rfl⟩

/-- Witness for C9: every fetch returns zero bytes in `wEmptyDoc`. -/
theorem c9_empty_pdf_witness :
    wEmptyDoc.pushOutcome ackText = none ∧
    wEmptyDoc.fetchOutcome wEmptyDoc.pdf1Id = Except.ok [] ∧
    wEmptyDoc.fetchOutcome wEmptyDoc.pdf2Id = Except.ok [] ∧
    wEmptyDoc.fetchOutcome wEmptyDoc.pdf3Id = Except.ok [] ∧
    (List.length ([] : List Nat) = 0 ∨ List.length ([] : List Nat) = 0 ∨
      List.length ([] : List Nat) = 0) ∧
    wEmptyDoc.replyOutcome emptyPdfText = none ∧
    (handle2 wEmptyDoc "u" "t" = ([Ev.pushEv "u" ackText, Ev.fetchEv wEmptyDoc.pdf1Id,
        Ev.fetchEv wEmptyDoc.pdf2Id, Ev.fetchEv wEmptyDoc.pdf3Id,
        Ev.replyEv "t" emptyPdfText], none) ∧
      (handle2 wEmptyDoc "u" "t").1.filter isInferEv = []) :=
  ⟨rfl, rfl, rfl, rfl, Or.inl rfl, rfl,
    c9_empty_pdf wEmptyDoc "u" "t" [] [] [] rfl rfl rfl rfl (Or.inl rfl) rfl⟩

/-- C10: in app.py, once fetch and ack push succeed, the whole inference
result is delivered as exactly one reply whatever its length: the only reply
in the trace carries the entire response, and the only push is the
acknowledgment - the answer is never pushed and never chunked. (Hypothesis:
that reply call succeeds.) -/
theorem c10_single_variant_one_reply (w : World1) (u t : String) (d : List Nat)
    (hf : w.fetchOutcome w.pdfId = Except.ok d)
    (hack : w.pushOutcome ackText = none)
    (hre : w.replyOutcome (process_with_gemini1 w) = none) :
    handle1 w u t = ([Ev.fetchEv w.pdfId, Ev.pushEv u ackText,
        Ev.replyEv t (process_with_gemini1 w)], none) ∧
    (handle1 w u t).1.filter isReplyEv = [Ev.replyEv t (process_with_gemini1 w)] ∧
    (handle1 w u t).1.filter isPushEv = [Ev.pushEv u ackText] := by
  have hmain : handle1 w u t = ([Ev.fetchEv w.pdfId, Ev.pushEv u ackText,
      Ev.replyEv t (process_with_gemini1 w)], none) := by
    simp [handle1, hf, hack, hre, withEvs]
  refine ⟨hmain, ?_, ?_⟩ <;> rw [hmain] <;> rfl

/-- Witness for C10 in the all-benign app.py world. -/
theorem c10_single_variant_one_reply_witness :
    wOk1.fetchOutcome wOk1.pdfId = Except.ok [1] ∧
    wOk1.pushOutcome ackText = none ∧
    wOk1.replyOutcome (process_with_gemini1 wOk1) = none ∧
    (handle1 wOk1 "u" "t" = ([Ev.fetchEv wOk1.pdfId, Ev.pushEv "u" ackText,
        Ev.replyEv "t" (process_with_gemini1 wOk1)], none) ∧
      (handle1 wOk1 "u" "t").1.filter isReplyEv
        = [Ev.replyEv "t" (process_with_gemini1 wOk1)] ∧
      (handle1 wOk1 "u" "t").1.filter isPushEv = [Ev.pushEv "u" ackText]) :=
  ⟨rfl, rfl, rfl, c10_single_variant_one_reply wOk1 "u" "t" [1] rfl rfl rfl⟩

end Hello60
